import Mathlib

/-
Verification of the dense-numeric-array / list-expression layer of this
repository (mathics-core fork): a shallow embedding of
src/mathics/builtin/numericarray.py and src/mathics/core/list.py.

Python values that travel through the layer (results of `.value`,
`.to_python()`, `ndarray.tolist()`) are modelled by the mutual inductive
`PyVal`/`PyList`.  NumPy machine floats are modelled as exact rationals:
the claims under study compare two runs of the very same conversion
pipeline, so rounding, which would be applied identically on both sides,
is abstracted away.  Machine-integer conversion is explicit: asarray
conversion of an out-of-range Python int raises OverflowError (modern
NumPy), astype wraps modulo 2^w (C-style unsafe cast), and dtype
inference picks int64, then uint64, then object by value range.
Python exceptions are modelled with `Except`: an `.error`/`.raised`
constructor marks an exception escaping the code under verification,
while caught exceptions follow the source's own `try`/`except` structure.
-/

set_option maxRecDepth 4000

deriving instance DecidableEq for Except

/- Nested Python value: the payloads seen by `numpy.asarray`, `.value`,
`to_python`, and `tolist` in the source. -/
mutual
inductive PyVal : Type where
  | int (i : Int)
  | real (q : ℚ)
  | cplx (re im : ℚ)
  | bool (b : Bool)
  | str (s : String)
  | list (xs : PyList)
inductive PyList : Type where
  | nil
  | cons (hd : PyVal) (tl : PyList)
end

deriving instance DecidableEq for PyVal
deriving instance DecidableEq for PyList
deriving instance Repr for PyVal
deriving instance Repr for PyList

/-- Convenience constructor for nested `PyList` literals. -/
def pyListOf : List PyVal → PyList
  | [] => .nil
  | x :: xs => .cons x (pyListOf xs)

/-- NumPy element types reachable in this layer: the numeric tags of the
spec's registry plus the non-numeric dtypes `numpy.asarray` can infer
(`bool`, unicode strings, `object`). -/
inductive Dtype : Type where
  | int8 | int16 | int32 | int64
  | uint8 | uint16 | uint32 | uint64
  | float32 | float64
  | complex64 | complex128
  | boolDt | strDt | objectDt
deriving DecidableEq, Repr

/-- Element category of a dtype, as tested by `numpy.issubdtype`. -/
inductive DCat : Type where
  | integerCat | floatingCat | complexCat | boolCat | strCat | objectCat
deriving DecidableEq, Repr

def dtypeCat : Dtype → DCat
  | .int8 | .int16 | .int32 | .int64 => .integerCat
  | .uint8 | .uint16 | .uint32 | .uint64 => .integerCat
  | .float32 | .float64 => .floatingCat
  | .complex64 | .complex128 => .complexCat
  | .boolDt => .boolCat
  | .strDt => .strCat
  | .objectDt => .objectCat

/-- Embedding of `_is_numeric_dtype` (numericarray.py, lines 25-32):
integer, floating, or complexfloating. -/
def isNumericDtype (d : Dtype) : Bool :=
  match dtypeCat d with
  | .integerCat => true
  | .floatingCat => true
  | .complexCat => true
  | _ => false

/-- Bit width and signedness of the integer dtypes. -/
def intInfo : Dtype → Nat × Bool
  | .int8 => (8, true)
  | .int16 => (16, true)
  | .int32 => (32, true)
  | .int64 => (64, true)
  | .uint8 => (8, false)
  | .uint16 => (16, false)
  | .uint32 => (32, false)
  | .uint64 => (64, false)
  | _ => (64, true)

/-- Two's-complement wrap of an integer into a signed width, the overflow
behaviour of NumPy integer casts. -/
def wrapSigned (i : Int) (bits : Nat) : Int :=
  let m : Int := 2 ^ bits
  let r := i % m
  if r < m / 2 then r else r - m

def wrapInt (i : Int) (bits : Nat) (signed : Bool) : Int :=
  if signed then wrapSigned i bits else i % (2 : Int) ^ bits

/-- Truncation toward zero, the C-style float-to-int conversion. -/
def ratTrunc (q : ℚ) : Int :=
  Int.tdiv q.num q.den

/-- String rendering used when a NumPy cast targets a string dtype; the
exact text is irrelevant to every claim, only non-numericness matters. -/
def pyStrOf : PyVal → String
  | .int i => toString i
  | .real q => toString q
  | .cplx re im => toString re ++ "+" ++ toString im ++ "j"
  | .bool b => if b then "True" else "False"
  | .str s => s
  | .list _ => "[...]"

/-- Digit value of a character, computed from its code point. -/
def charDigitVal (c : Char) : Option Nat :=
  let n := c.toNat
  if 48 ≤ n ∧ n ≤ 57 then some (n - 48) else none

def parseDigitsAcc (acc : Nat) : List Char → Option Nat
  | [] => some acc
  | c :: cs =>
    match charDigitVal c with
    | some d => parseDigitsAcc (acc * 10 + d) cs
    | none => none

/-- Modelled from Python's int() parsing of numeric text (an external
collaborator of the NumPy string-to-number casts): an optionally signed
digit string yields its value, every other string fails. -/
def pyParseInt (s : String) : Option Int :=
  match s.data with
  | [] => none
  | '-' :: cs =>
    match cs with
    | [] => none
    | _ => (parseDigitsAcc 0 cs).map (fun n => -(n : Int))
  | cs => (parseDigitsAcc 0 cs).map (fun n => (n : Int))

/-- Whether an integer value lies inside the representable range of an
integer dtype. -/
def intInRange (d : Dtype) (i : Int) : Bool :=
  let bi := intInfo d
  if bi.2 then decide (-((2 : Int) ^ (bi.1 - 1)) ≤ i ∧ i < (2 : Int) ^ (bi.1 - 1))
  else decide (0 ≤ i ∧ i < (2 : Int) ^ bi.1)

/-- Conversion of a Python int to an integer dtype during array
construction: modern NumPy raises OverflowError when the value does not
fit the target range (it never wraps here). -/
def castIntTo (d : Dtype) (i : Int) : Except String PyVal :=
  if intInRange d i then .ok (.int i)
  else .error "OverflowError: Python int out of bounds for dtype"

/-- Scalar cast applied by `numpy.asarray(..., dtype=d)` to one leaf.
Integer targets accept only in-range values (OverflowError otherwise);
complex-to-real and complex-to-int raise (NumPy refuses them in
asarray); string leaves parse as numbers when they are numeric text and
raise otherwise.  Machine floats are modelled as exact rationals. -/
def castScalarAsarray (d : Dtype) (v : PyVal) : Except String PyVal :=
  match dtypeCat d, v with
  | _, .list _ => .error "internal: scalar cast applied to a list"
  | .integerCat, .int i => castIntTo d i
  | .integerCat, .bool b => castIntTo d (if b then 1 else 0)
  | .integerCat, .real q => castIntTo d (ratTrunc q)
  | .integerCat, .cplx _ _ => .error "TypeError: int argument cannot be a complex number"
  | .integerCat, .str s =>
    match pyParseInt s with
    | some i => castIntTo d i
    | none => .error "ValueError: invalid literal for int"
  | .floatingCat, .int i => .ok (.real i)
  | .floatingCat, .bool b => .ok (.real (if b then 1 else 0))
  | .floatingCat, .real q => .ok (.real q)
  | .floatingCat, .cplx _ _ => .error "TypeError: float argument cannot be a complex number"
  | .floatingCat, .str s =>
    match pyParseInt s with
    | some i => .ok (.real i)
    | none => .error "ValueError: could not convert string to float"
  | .complexCat, .int i => .ok (.cplx i 0)
  | .complexCat, .bool b => .ok (.cplx (if b then 1 else 0) 0)
  | .complexCat, .real q => .ok (.cplx q 0)
  | .complexCat, .cplx re im => .ok (.cplx re im)
  | .complexCat, .str s =>
    match pyParseInt s with
    | some i => .ok (.cplx i 0)
    | none => .error "ValueError: complex arg is a malformed string"
  | .boolCat, .int i => .ok (.bool (i ≠ 0))
  | .boolCat, .bool b => .ok (.bool b)
  | .boolCat, .real q => .ok (.bool (q ≠ 0))
  | .boolCat, .cplx re im => .ok (.bool (¬ (re = 0 ∧ im = 0)))
  | .boolCat, .str _ => .error "ValueError: could not convert string to bool"
  | .strCat, w => .ok (.str (pyStrOf w))
  | .objectCat, w => .ok w

/-- Scalar cast applied by `ndarray.astype(d)`: a C-style unsafe cast of
already-stored machine values, so numeric sources wrap modulo 2^w on
integer targets instead of raising, and complex sources are accepted for
real and integer targets, keeping the real part (NumPy discards the
imaginary part with a warning in `astype`). -/
def castScalarAstype (d : Dtype) (v : PyVal) : Except String PyVal :=
  match v, dtypeCat d with
  | .int i, .integerCat => .ok (.int (wrapInt i (intInfo d).1 (intInfo d).2))
  | .real q, .integerCat => .ok (.int (wrapInt (ratTrunc q) (intInfo d).1 (intInfo d).2))
  | .cplx re _, .integerCat => .ok (.int (wrapInt (ratTrunc re) (intInfo d).1 (intInfo d).2))
  | .cplx re _, .floatingCat => .ok (.real re)
  | _, _ => castScalarAsarray d v

/- Leaf-wise traversal of a nested Python value, propagating the first
exception, as NumPy conversion does. -/
mutual
def mapLeavesVal (f : PyVal → Except String PyVal) : PyVal → Except String PyVal
  | .list xs => (mapLeavesList f xs).map .list
  | v => f v
def mapLeavesList (f : PyVal → Except String PyVal) : PyList → Except String PyList
  | .nil => .ok .nil
  | .cons x xs =>
    match mapLeavesVal f x, mapLeavesList f xs with
    | .ok y, .ok ys => .ok (.cons y ys)
    | .error e, _ => .error e
    | _, .error e => .error e
end

/- Array shape inferred by NumPy from a nested value: none when the
nesting is ragged (modern NumPy raises on inhomogeneous input). -/
mutual
def shapeOf : PyVal → Option (List Nat)
  | .list xs =>
    match shapeOfList xs with
    | some (n, s) => some (n :: s)
    | none => none
  | _ => some []
def shapeOfList : PyList → Option (Nat × List Nat)
  | .nil => some (0, [])
  | .cons x xs =>
    match shapeOf x, shapeOfList xs with
    | some s, some (n, t) => if n = 0 ∨ s = t then some (n + 1, s) else none
    | _, _ => none
end

/-- Summary of the leaves of a nested Python value, the information
NumPy's dtype-inference pass collects: which scalar kinds occur, and
whether every int leaf fits int64 resp. uint64. -/
structure LeafInfo where
  hasBool : Bool
  hasInt : Bool
  hasFloat : Bool
  hasCplx : Bool
  hasStr : Bool
  intsFitInt64 : Bool
  intsFitUint64 : Bool
deriving DecidableEq, Repr

def leafInfoEmpty : LeafInfo :=
  ⟨false, false, false, false, false, true, true⟩

def leafInfoJoin (a b : LeafInfo) : LeafInfo :=
  ⟨a.hasBool || b.hasBool, a.hasInt || b.hasInt, a.hasFloat || b.hasFloat,
   a.hasCplx || b.hasCplx, a.hasStr || b.hasStr,
   a.intsFitInt64 && b.intsFitInt64, a.intsFitUint64 && b.intsFitUint64⟩

def leafInfoOfScalar : PyVal → LeafInfo
  | .int i => ⟨false, true, false, false, false, intInRange .int64 i, intInRange .uint64 i⟩
  | .real _ => ⟨false, false, true, false, false, true, true⟩
  | .cplx _ _ => ⟨false, false, false, true, false, true, true⟩
  | .bool _ => ⟨true, false, false, false, false, true, true⟩
  | .str _ => ⟨false, false, false, false, true, true, true⟩
  | .list _ => leafInfoEmpty

mutual
def leafInfoOfVal : PyVal → LeafInfo
  | .list xs => leafInfoOfList xs
  | v => leafInfoOfScalar v
def leafInfoOfList : PyList → LeafInfo
  | .nil => leafInfoEmpty
  | .cons x xs => leafInfoJoin (leafInfoOfVal x) (leafInfoOfList xs)
end

/-- Dtype that `numpy.asarray` infers with dtype=None: strings absorb
everything, then complex, then float (a Python float converts any int);
all-integer data takes int64 when every value fits, uint64 when every
value is in [0, 2^64), and falls back to the object dtype beyond (which
the coercion layer then rejects); bool only for pure-bool data; an
empty array defaults to float64. -/
def naturalDtypeOf (v : PyVal) : Dtype :=
  let L := leafInfoOfVal v
  if L.hasStr then .strDt
  else if L.hasCplx then .complex128
  else if L.hasFloat then .float64
  else if L.hasInt then
    if L.intsFitInt64 then .int64
    else if L.intsFitUint64 then .uint64
    else .objectDt
  else if L.hasBool then .boolDt
  else .float64

/-- Dense buffer: a NumPy ndarray as seen through this layer, i.e. an
element dtype plus nested data whose leaves have been cast to it. -/
structure NpArray where
  dtype : Dtype
  data : PyVal
deriving DecidableEq, Repr

/-- Embedding of `numpy.asarray(v, dtype=dtype)`: shape inference with a
raise on ragged input, then leaf-wise cast to the requested (or the
naturally inferred) dtype. -/
def asarray (v : PyVal) (dtype : Option Dtype) : Except String NpArray :=
  match shapeOf v with
  | none => .error "ValueError: setting an array element with a sequence"
  | some _ =>
    match mapLeavesVal (castScalarAsarray (dtype.getD (naturalDtypeOf v))) v with
    | .ok w => .ok ⟨dtype.getD (naturalDtypeOf v), w⟩
    | .error e => .error e

/-- Embedding of `ndarray.astype(d)`. -/
def astype (a : NpArray) (d : Dtype) : Except String NpArray :=
  match mapLeavesVal (castScalarAstype d) a.data with
  | .ok w => .ok ⟨d, w⟩
  | .error e => .error e

/- Whether every leaf of a nested value is numeric (int, real or
complex): the class of data the spec calls valid nested numeric data. -/
mutual
def isNumericData : PyVal → Bool
  | .int _ => true
  | .real _ => true
  | .cplx _ _ => true
  | .bool _ => false
  | .str _ => false
  | .list xs => isNumericDataList xs
def isNumericDataList : PyList → Bool
  | .nil => true
  | .cons x xs => isNumericData x && isNumericDataList xs
end

/-- Modelled from the spec: `NUMERIC_ARRAY_TYPE_MAP` lives in
mathics.core.atoms, which is not under src/; section 6 of the spec fixes
the registered names and their targets. -/
def numericArrayTypeMap : String → Option Dtype
  | "Integer8" => some .int8
  | "Integer16" => some .int16
  | "Integer32" => some .int32
  | "Integer64" => some .int64
  | "UnsignedInteger8" => some .uint8
  | "UnsignedInteger16" => some .uint16
  | "UnsignedInteger32" => some .uint32
  | "UnsignedInteger64" => some .uint64
  | "Real32" => some .float32
  | "Real64" => some .float64
  | "Complex64" => some .complex64
  | "Complex128" => some .complex128
  | _ => none

/-- Raw descriptor parsing by `numpy.dtype(key)` (external collaborator),
modelled on a representative table of descriptor strings; every string
outside the table is one NumPy rejects with TypeError/ValueError. -/
def numpyDtypeOfString : String → Option Dtype
  | "int8" | "i1" => some .int8
  | "int16" | "i2" => some .int16
  | "int32" | "i4" => some .int32
  | "int64" | "i8" | "int" => some .int64
  | "uint8" | "u1" => some .uint8
  | "uint16" | "u2" => some .uint16
  | "uint32" | "u4" => some .uint32
  | "uint64" | "u8" | "uint" => some .uint64
  | "float32" | "f4" => some .float32
  | "float64" | "f8" | "float" => some .float64
  | "complex64" | "c8" => some .complex64
  | "complex128" | "c16" | "complex" => some .complex128
  | "bool" => some .boolDt
  | "str" => some .strDt
  | "object" => some .objectDt
  | _ => none

/-- Embedding of `strip_context`: drop everything up to the last
context-separator backtick of a symbol name. -/
def stripContext (s : String) : String :=
  (s.splitOn "`").getLastD s

/-- Type-spec argument of `NumericArray[data, typespec]` as it reaches
`_resolve_dtype` (numericarray.py, lines 100-135): a Symbol (full
context name), a String, or any other element through its `to_python`
result, with `none` modelling an exception inside `to_python`, which
that branch catches. -/
inductive MTypeSpec : Type where
  | sym (name : String)
  | str (s : String)
  | other (py : Option PyVal)
deriving DecidableEq, Repr

/-- Outcome of `_resolve_dtype`: `ok none` is the Automatic answer
`(None, True)`, `ok (some d)` is `(dtype, True)`, `invalid` is the
messaged `(None, False)`, and `raised` is an exception escaping the
method. -/
inductive ResolveResult : Type where
  | ok (dtype : Option Dtype)
  | invalid
  | raised (err : String)
deriving DecidableEq, Repr

/-- Python truthiness of the resolver key (`if not key`). -/
def keyFalsy : Option PyVal → Bool
  | none => true
  | some (.str s) => s.isEmpty
  | some (.int i) => i = 0
  | some (.real q) => q = 0
  | some (.bool b) => !b
  | some (.cplx re im) => re = 0 && im = 0
  | some (.list xs) =>
    match xs with
    | .nil => true
    | .cons _ _ => false

/-- Common tail of `_resolve_dtype` after the key is computed (lines
119-135): falsiness check, registry lookup (which raises TypeError on an
unhashable key, outside any try), `numpy.dtype` fallback with
TypeError/ValueError caught, and the numeric-category gate. -/
def resolveFromKey (key : Option PyVal) : ResolveResult :=
  if keyFalsy key then .invalid
  else
    match key with
    | some (.list _) => .raised "TypeError: unhashable type: list"
    | some (.str s) =>
      match numericArrayTypeMap s with
      | some d => if isNumericDtype d then .ok (some d) else .invalid
      | none =>
        match numpyDtypeOfString s with
        | some d => if isNumericDtype d then .ok (some d) else .invalid
        | none => .invalid
    | _ => .invalid

/-- Embedding of `NumericArray._resolve_dtype` (numericarray.py, lines
100-135). -/
def resolveDtype : MTypeSpec → ResolveResult
  | .sym name =>
    if name = "System`Automatic" then .ok none
    else resolveFromKey (some (.str (stripContext name)))
  | .str s =>
    if s = "Automatic" then .ok none
    else resolveFromKey (some (.str s))
  | .other py =>
    if py = some (.str "Automatic") then .ok none
    else resolveFromKey py

/-- Data argument of `NumericArray[data, typespec]` as discriminated by
`_coerce_to_array` (numericarray.py, lines 137-172): an existing
NumericArrayAtom; a NumericArray-headed expression carrying either an
ndarray `.value` or an inner atom as first element, or neither; a node
with a literal `.value`; or a generic node through `to_python`, with
`none` modelling an exception there (caught). -/
inductive MData : Type where
  | atomNA (arr : NpArray)
  | wrappedVal (arr : NpArray)
  | wrappedElem (arr : NpArray)
  | wrappedBad
  | literalNode (value : PyVal)
  | genericNode (toPython : Option PyVal)
deriving DecidableEq, Repr

/-- Outcome of `_coerce_to_array`: a buffer, the Python `None` return, or
an exception escaping the method. -/
inductive CoerceResult : Type where
  | arr (a : NpArray)
  | nullResult
  | raised (err : String)
deriving DecidableEq, Repr

/-- Common tail of `_coerce_to_array` (lines 163-172): cast to the
explicitly requested dtype when it differs (`astype` outside any try, so
its exceptions escape), then reject object dtype and non-numeric
dtypes by returning None. -/
def finishCoerce (a0 : NpArray) (dtype : Option Dtype) : CoerceResult :=
  let stepped : Except String NpArray :=
    match dtype with
    | some d => if a0.dtype ≠ d then astype a0 d else .ok a0
    | none => .ok a0
  match stepped with
  | .error e => .raised e
  | .ok a =>
    if a.dtype = .objectDt then .nullResult
    else if ¬ isNumericDtype a.dtype then .nullResult
    else .arr a

/-- Embedding of `NumericArray._coerce_to_array` (numericarray.py, lines
137-172).  The literal branch calls `numpy.asarray` outside any try, so
its exceptions escape; the generic branch wraps both `to_python` and
`numpy.asarray` in try/except and returns None on failure. -/
def coerceToArray (data : MData) (dtype : Option Dtype) : CoerceResult :=
  match data with
  | .atomNA a => finishCoerce a dtype
  | .wrappedVal a => finishCoerce a dtype
  | .wrappedElem a => finishCoerce a dtype
  | .wrappedBad => .nullResult
  | .literalNode v =>
    match asarray v dtype with
    | .ok a => finishCoerce a dtype
    | .error e => .raised e
  | .genericNode none => .nullResult
  | .genericNode (some v) =>
    match asarray v dtype with
    | .ok a => finishCoerce a dtype
    | .error _ => .nullResult

/-- Outcome of `NumericArray.eval_list`: `failed tag` is the messaged
`SymbolFailed` return carrying which diagnostic was emitted ("type" or
"data"), `success arr tag` is the returned
`Expression(SymbolNumericArray, NumericArrayAtom(arr, tag))`, and
`raised` is an uncaught exception. -/
inductive EvalListResult : Type where
  | raised (err : String)
  | failed (msgTag : String)
  | success (arr : NpArray) (tag : Option Dtype)
deriving DecidableEq, Repr

/-- Embedding of `NumericArray.eval_list` (numericarray.py, lines
50-70). -/
def evalList (data : MData) (typespec : MTypeSpec) : EvalListResult :=
  match resolveDtype typespec with
  | .raised e => .raised e
  | .invalid => .failed "type"
  | .ok dt =>
    match coerceToArray data dt with
    | .raised e => .raised e
    | .nullResult => .failed "data"
    | .arr a => .success a dt

/- Symbolic node produced by from_python on nested primitive data:
Integer, Real, Complex and String atoms, True/False symbols, and list
expressions. -/
mutual
inductive MNormal : Type where
  | intA (i : Int)
  | realA (q : ℚ)
  | cplxA (re im : ℚ)
  | symA (name : String)
  | strA (s : String)
  | listE (xs : MNormalList)
inductive MNormalList : Type where
  | nil
  | cons (hd : MNormal) (tl : MNormalList)
end

deriving instance DecidableEq for MNormal
deriving instance DecidableEq for MNormalList
deriving instance Repr for MNormal
deriving instance Repr for MNormalList

/- Embedding of mathics.core.convert.python.from_python on the nested
primitive values this layer produces (collaborator consumed from the
host evaluator, spec section 6): bools become the True/False symbols,
ints/floats/complexes become the matching atoms, lists become list
expressions. -/
mutual
def fromPythonVal : PyVal → MNormal
  | .int i => .intA i
  | .real q => .realA q
  | .cplx re im => .cplxA re im
  | .bool b => .symA (if b then "System`True" else "System`False")
  | .str s => .strA s
  | .list xs => .listE (fromPythonList xs)
def fromPythonList : PyList → MNormalList
  | .nil => .nil
  | .cons x xs => .cons (fromPythonVal x) (fromPythonList xs)
end

/-- Embedding of `NumericArray.eval_normal` (numericarray.py, lines
75-80): `from_python(atom.value.tolist())`.  `tolist` on an ndarray of
our model is the stored nested data itself, whose leaves were already
cast to Python scalars of the array's dtype. -/
def evalNormal (a : NpArray) : MNormal :=
  fromPythonVal a.data

/-
Embedding of src/mathics/core/list.py.

Python object identity is modelled by an explicit `id : Nat` field on
elements and on list nodes: `id(x) != id(y)` in the source is `x.id ≠
y.id` here, and operations that build a brand-new Python object take the
fresh id as an argument.  The evaluator (`element.evaluate(evaluation)`,
a collaborator outside this layer) is a parameter `ev`; returning `none`
models `evaluate` returning Python `None`.
-/

/-- Element of a list node as seen by ListExpression: its identity, its
`is_literal` flag with the `.value` read off when literal, whether it is
an `EvalMixin` (evaluable), whether it `has_form("Unevaluated", 1)`, and
whether it is already in fully evaluated (final) form. -/
structure MElem where
  id : Nat
  isLiteral : Bool
  litValue : PyVal
  isEvalMixin : Bool
  hasFormUnevaluated : Bool
  fullyEvaluated : Bool
deriving DecidableEq, Repr

/-- The one field of ElementsProperties read by list.py:
`elements_fully_evaluated`. -/
structure MProps where
  elementsFullyEvaluated : Bool
deriving DecidableEq, Repr

/-- List node state after `ListExpression.__init__` (list.py, lines
43-88): fixed List head, elements, the literal flag, the optional
literal-value cache (`none` models the `value` attribute never being
assigned, so that reading it raises AttributeError), and the optional
elements-properties record. -/
structure MListExpr where
  id : Nat
  head : String
  elements : List MElem
  isLiteral : Bool
  value : Option (List PyVal)
  elementsProperties : Option MProps
deriving DecidableEq, Repr

def symbolList : String := "System`List"

/-- Literal scan of `ListExpression.__init__` (lines 72-82): collect
element values left to right, abandoning the scan at the first
non-literal element (in which case no value is assigned at all). -/
def scanLiteralValues : List MElem → Option (List PyVal)
  | [] => some []
  | e :: es =>
    if e.isLiteral then (scanLiteralValues es).map (fun vs => e.litValue :: vs)
    else none

/-- Embedding of `ListExpression.__init__` (list.py, lines 43-88): with
explicit `literal_values` the node is trusted literal verbatim;
otherwise the scan decides the literal flag and cache. -/
def mkListExpression (freshId : Nat) (elements : List MElem)
    (elemProps : Option MProps) (literalValues : Option (List PyVal)) : MListExpr :=
  match literalValues with
  | some v => ⟨freshId, symbolList, elements, true, some v, elemProps⟩
  | none =>
    match scanLiteralValues elements with
    | some vs => ⟨freshId, symbolList, elements, true, some vs, elemProps⟩
    | none => ⟨freshId, symbolList, elements, false, none, elemProps⟩

/-- Modelled from the spec: `Expression._build_elements_properties` is
defined in mathics.core.expression, which is not under src/.  Per the
spec (sections 4.3 and 8) the `elements_fully_evaluated` bit it computes
is whether every element is already in final form. -/
def buildElementsProperties (elements : List MElem) : MProps :=
  ⟨elements.all (fun e => e.fullyEvaluated)⟩

/-- Per-element body of the loop in `ListExpression.evaluate_elements`
(list.py, lines 115-122): skip elements with form Unevaluated and
non-EvalMixin elements; otherwise evaluate, and replace exactly when the
result is non-None and has a different object identity (`id()`
comparison, so a value-equal replacement still counts). -/
def evalElement (ev : MElem → Option MElem) (e : MElem) : MElem × Bool :=
  if !e.hasFormUnevaluated && e.isEvalMixin then
    match ev e with
    | some nv => if nv.id ≠ e.id then (nv, true) else (e, false)
    | none => (e, false)
  else (e, false)

/-- Embedding of `ListExpression.evaluate_elements` (list.py, lines
107-129): if no element changed identity, return self; otherwise build a
brand-new ListExpression from the updated elements (its constructor
recomputes the literal cache) and then build its elements properties. -/
def evaluateElements (ev : MElem → Option MElem) (l : MListExpr) (freshId : Nat) : MListExpr :=
  let rs := l.elements.map (evalElement ev)
  if rs.any (fun r => r.2) then
    let nl := mkListExpression freshId (rs.map (fun r => r.1)) none none
    { nl with elementsProperties := some (buildElementsProperties nl.elements) }
  else l

/-- Embedding of `ListExpression.shallow_copy` (list.py, lines 176-183):
a new ListExpression over the same elements, forwarding the stored
elements properties; the constructor reruns the literal scan. -/
def shallowCopy (l : MListExpr) (freshId : Nat) : MListExpr :=
  mkListExpression freshId l.elements l.elementsProperties none

/-- Embedding of `ListExpression.rewrite_apply_eval_step` (list.py,
lines 141-166).  When `elements_properties` is None it is first built in
place (same instance, one field filled in).  If the elements are not
all fully evaluated, the step evaluates the elements of a shallow copy;
in every case the returned Boolean is False, the fixed-point signal
telling `evaluate()` not to iterate. -/
def rewriteApplyEvalStep (ev : MElem → Option MElem) (l : MListExpr)
    (copyId evalId : Nat) : MListExpr × Bool :=
  let l1 :=
    match l.elementsProperties with
    | none => { l with elementsProperties := some (buildElementsProperties l.elements) }
    | some _ => l
  let props :=
    match l1.elementsProperties with
    | some p => p
    | none => buildElementsProperties l1.elements
  if !props.elementsFullyEvaluated then
    (evaluateElements ev (shallowCopy l1 copyId) evalId, false)
  else (l1, false)

/-- Embedding of `ListExpression.set_head` (list.py, lines 168-174): a
TypeError for any head other than SymbolList, a silent no-op for
SymbolList itself; the stored head is never written. -/
def setHead (l : MListExpr) (newHead : String) : Except String MListExpr :=
  if newHead ≠ symbolList then
    .error "TypeError: Attempt to modify the Head of a ListExpression"
  else .ok l

/-
Embedding of LazyListExpression / NumpyArrayListExpression (list.py,
lines 199-269).  A child produced by materialization is either a leaf
atom (via from_python) or a freshly constructed, still unmaterialized
NumpyArrayListExpression over a sub-buffer; the latter is represented by
that sub-buffer.
-/

inductive LazyChild : Type where
  | atomChild (m : MNormal)
  | lazyChild (subValue : NpArray)
deriving DecidableEq, Repr

/-- State of a NumpyArrayListExpression: the stored ndarray value (also
its literal cache, supplied to the ListExpression constructor as
`literal_values`) and the private memoization slot `__elements`
(`none` right after construction). -/
structure LazyNode where
  value : NpArray
  elementsCache : Option (List LazyChild)
deriving DecidableEq, Repr

/-- Embedding of `NumpyArrayListExpression.__init__` (list.py, lines
255-259) composed with the LazyListExpression and ListExpression
constructors: store the value, leave the memoization slot empty. -/
def mkNumpyArrayListExpression (a : NpArray) : LazyNode :=
  ⟨a, none⟩

/-- Construction viewed as a fallible operation.  The source `__init__`
(list.py, lines 255-259) performs no dtype/category check and contains
no raise path, so checked construction always succeeds. -/
def numpyArrayListInit (a : NpArray) : Except String LazyNode :=
  .ok (mkNumpyArrayListExpression a)

/-- Body of `np_to_m` inside `_make_elements` (list.py, lines 263-267):
a sub-ndarray becomes a new NumpyArrayListExpression, a scalar goes
through `from_python(v.item())`. -/
def npEntryToM (d : Dtype) (v : PyVal) : LazyChild :=
  match v with
  | .list xs => .lazyChild ⟨d, .list xs⟩
  | s => .atomChild (fromPythonVal s)

def pyListMapChild (d : Dtype) : PyList → List LazyChild
  | .nil => []
  | .cons x xs => npEntryToM d x :: pyListMapChild d xs

/-- Embedding of `NumpyArrayListExpression._make_elements` (list.py,
lines 262-269): iterate the leading axis of the stored ndarray; a 0-d
array is not iterable, which raises. -/
def makeElements (a : NpArray) : Except String (List LazyChild) :=
  match a.data with
  | .list xs => .ok (pyListMapChild a.dtype xs)
  | _ => .error "TypeError: iteration over a 0-d array"

/-- Embedding of the `is_instantiated` probe (list.py, lines 240-242):
whether the private slot is not None. -/
def isInstantiated (n : LazyNode) : Bool :=
  n.elementsCache.isSome

/-- Embedding of the `_elements` property (list.py, lines 229-233):
`if not self.__elements` tests Python truthiness, so both a None slot
and an already-cached empty tuple trigger `_make_elements`.  Returns the
element view, the updated node state, and whether `_make_elements` ran
on this access. -/
def elementsAccess (n : LazyNode) : Except String (List LazyChild × LazyNode × Bool) :=
  let falsy :=
    match n.elementsCache with
    | none => true
    | some es => es.isEmpty
  if falsy then
    match makeElements n.value with
    | .ok made => .ok (made, { n with elementsCache := some made }, true)
    | .error e => .error e
  else
    .ok (n.elementsCache.getD [], n, false)

/-
Helper lemmas.
-/

/-- A list with a non-literal element makes the constructor scan abandon
without assigning a value. -/
theorem scanLiteralValues_none (es : List MElem)
    (h : es.any (fun e => !e.isLiteral) = true) : scanLiteralValues es = none := by
  induction es with
  | nil => simp at h
  | cons e es ih =>
    simp only [List.any_cons, Bool.or_eq_true] at h
    unfold scanLiteralValues
    rcases h with h | h
    · simp [Bool.not_eq_true'] at h
      simp [h]
    · by_cases he : e.isLiteral = true
      · simp [he, ih h]
      · simp [he]

/-- Every dtype the resolver validates is numeric: the `ok (some d)`
outcome only passes through the `_is_numeric_dtype` gate. -/
theorem resolveFromKey_numeric (k : Option PyVal) (d : Dtype)
    (h : resolveFromKey k = .ok (some d)) : isNumericDtype d = true := by
  unfold resolveFromKey at h
  by_cases hf : keyFalsy k = true
  · simp [hf] at h
  · simp only [Bool.not_eq_true] at hf
    simp only [hf, Bool.false_eq_true, if_false] at h
    match k with
    | none => simp at h
    | some (.list _) => simp at h
    | some (.int _) => simp at h
    | some (.real _) => simp at h
    | some (.cplx _ _) => simp at h
    | some (.bool _) => simp at h
    | some (.str s) =>
      simp only at h
      cases hm : numericArrayTypeMap s with
      | some d0 =>
        rw [hm] at h
        by_cases hn : isNumericDtype d0 = true
        · simp [hn] at h; rwa [← h]
        · simp only [Bool.not_eq_true] at hn
          simp [hn] at h
      | none =>
        rw [hm] at h
        cases hp : numpyDtypeOfString s with
        | some d0 =>
          rw [hp] at h
          by_cases hn : isNumericDtype d0 = true
          · simp [hn] at h; rwa [← h]
          · simp only [Bool.not_eq_true] at hn
            simp [hn] at h
        | none => rw [hp] at h; simp at h

theorem resolveDtype_numeric (T : MTypeSpec) (d : Dtype)
    (h : resolveDtype T = .ok (some d)) : isNumericDtype d = true := by
  unfold resolveDtype at h
  match T with
  | .sym name =>
    by_cases ha : name = "System`Automatic"
    · simp [ha] at h
    · simp only [ha, if_false] at h
      exact resolveFromKey_numeric _ _ h
  | .str s =>
    by_cases ha : s = "Automatic"
    · simp [ha] at h
    · simp only [ha, if_false] at h
      exact resolveFromKey_numeric _ _ h
  | .other py =>
    by_cases ha : py = some (.str "Automatic")
    · simp [ha] at h
    · simp only [ha, if_false] at h
      exact resolveFromKey_numeric _ _ h

theorem numericDtype_ne_object {d : Dtype} (h : isNumericDtype d = true) :
    d ≠ .objectDt := by
  intro he
  subst he
  simp [isNumericDtype, dtypeCat] at h


/-- An integer-dtype conversion outputs a scalar. -/
theorem castIntTo_scalar (d : Dtype) (i : Int) (r : PyVal)
    (h : castIntTo d i = .ok r) : shapeOf r = some [] := by
  unfold castIntTo at h
  split at h
  · simp at h
    subst h
    rfl
  · simp at h

/-- A scalar cast outputs a scalar. -/
theorem castScalarAsarray_scalar (d : Dtype) (v r : PyVal)
    (h : castScalarAsarray d v = .ok r) : shapeOf r = some [] := by
  unfold castScalarAsarray at h
  cases hc : dtypeCat d <;> rw [hc] at h <;> cases v <;>
    first
    | (simp at h; subst h; rfl)
    | (simp at h; exact castIntTo_scalar d _ r h)
    | (simp at h
       rename_i s
       cases hs : pyParseInt s
       · rw [hs] at h; simp at h
       · rw [hs] at h; simp at h; subst h; rfl)
    | (simp at h
       rename_i s
       cases hs : pyParseInt s
       · rw [hs] at h; simp at h
       · rw [hs] at h
         exact castIntTo_scalar d _ r h)
    | (simp at h)

mutual
theorem mapLeavesVal_shape (f : PyVal → Except String PyVal)
    (hf : ∀ s r, f s = .ok r → shapeOf r = some []) :
    ∀ (v w : PyVal), mapLeavesVal f v = .ok w → shapeOf w = shapeOf v
  | .list xs, w, h => by
    simp only [mapLeavesVal] at h
    cases hm : mapLeavesList f xs with
    | error e => rw [hm] at h; simp [Except.map] at h
    | ok ys =>
      rw [hm] at h
      simp [Except.map] at h
      subst h
      simp only [shapeOf]
      rw [mapLeavesList_shape f hf xs ys hm]
  | .int i, w, h => by
    simp only [mapLeavesVal] at h
    rw [hf _ _ h]; rfl
  | .real q, w, h => by
    simp only [mapLeavesVal] at h
    rw [hf _ _ h]; rfl
  | .cplx re im, w, h => by
    simp only [mapLeavesVal] at h
    rw [hf _ _ h]; rfl
  | .bool b, w, h => by
    simp only [mapLeavesVal] at h
    rw [hf _ _ h]; rfl
  | .str s, w, h => by
    simp only [mapLeavesVal] at h
    rw [hf _ _ h]; rfl
theorem mapLeavesList_shape (f : PyVal → Except String PyVal)
    (hf : ∀ s r, f s = .ok r → shapeOf r = some []) :
    ∀ (xs ys : PyList), mapLeavesList f xs = .ok ys → shapeOfList ys = shapeOfList xs
  | .nil, ys, h => by
    simp only [mapLeavesList] at h
    simp at h
    subst h
    rfl
  | .cons x xs, ys, h => by
    simp only [mapLeavesList] at h
    cases hx : mapLeavesVal f x with
    | error e => rw [hx] at h; simp at h
    | ok y =>
      cases hxs : mapLeavesList f xs with
      | error e => rw [hx, hxs] at h; simp at h
      | ok ys0 =>
        rw [hx, hxs] at h
        simp at h
        subst h
        simp only [shapeOfList]
        rw [mapLeavesVal_shape f hf x y hx, mapLeavesList_shape f hf xs ys0 hxs]
end

theorem astype_ok_dtype (a0 : NpArray) (d : Dtype) (b : NpArray)
    (h : astype a0 d = .ok b) : b.dtype = d := by
  unfold astype at h
  cases hm : mapLeavesVal (castScalarAstype d) a0.data with
  | error e => rw [hm] at h; simp at h
  | ok w => rw [hm] at h; simp at h; subst h; rfl

theorem asarray_ok_dtype (v : PyVal) (dt : Option Dtype) (a : NpArray)
    (h : asarray v dt = .ok a) : a.dtype = dt.getD (naturalDtypeOf v) := by
  unfold asarray at h
  cases hs : shapeOf v with
  | none => rw [hs] at h; simp at h
  | some sh =>
    rw [hs] at h
    cases hm : mapLeavesVal (castScalarAsarray (dt.getD (naturalDtypeOf v))) v with
    | error e => rw [hm] at h; simp at h
    | ok w => rw [hm] at h; simp at h; subst h; rfl

/-- When the buffer already has the requested (or no) dtype and that
dtype is numeric, the tail checks of the coercion pass it through. -/
theorem finishCoerce_of_matching (a0 : NpArray) (dt : Option Dtype)
    (hd : ∀ d, dt = some d → a0.dtype = d) (hn : isNumericDtype a0.dtype = true) :
    finishCoerce a0 dt = .arr a0 := by
  have hno : ¬ a0.dtype = Dtype.objectDt := numericDtype_ne_object hn
  unfold finishCoerce
  cases dt with
  | none => simp [hno, hn]
  | some d =>
    have he : a0.dtype = d := hd d rfl
    rw [he] at hn hno
    simp [he, hno, hn]

theorem finishCoerce_arr_dtype (a0 : NpArray) (d : Dtype) (a : NpArray)
    (h : finishCoerce a0 (some d) = .arr a) : a.dtype = d := by
  unfold finishCoerce at h
  by_cases he : a0.dtype = d
  · simp only [ne_eq, he, not_true_eq_false, if_false] at h
    simp at h
    split at h
    · simp at h
    · split at h
      · simp at h
      · simp at h
        rw [← h]
        exact he
  · simp only [ne_eq, he, not_false_eq_true, if_true] at h
    cases ha : astype a0 d with
    | error e => rw [ha] at h; simp at h
    | ok b =>
      rw [ha] at h
      simp at h
      split at h
      · simp at h
      · split at h
        · simp at h
        · simp at h
          rw [← h]
          exact astype_ok_dtype a0 d b ha

theorem coerceToArray_some_dtype (data : MData) (d : Dtype) (a : NpArray)
    (h : coerceToArray data (some d) = .arr a) : a.dtype = d := by
  cases data with
  | atomNA a0 => exact finishCoerce_arr_dtype a0 d a h
  | wrappedVal a0 => exact finishCoerce_arr_dtype a0 d a h
  | wrappedElem a0 => exact finishCoerce_arr_dtype a0 d a h
  | wrappedBad => simp [coerceToArray] at h
  | literalNode v =>
    simp only [coerceToArray] at h
    cases ha : asarray v (some d) with
    | error e => rw [ha] at h; simp at h
    | ok a0 =>
      rw [ha] at h
      simp at h
      exact finishCoerce_arr_dtype a0 d a h
  | genericNode py =>
    cases py with
    | none => simp [coerceToArray] at h
    | some v =>
      simp only [coerceToArray] at h
      cases ha : asarray v (some d) with
      | error e => rw [ha] at h; simp at h
      | ok a0 =>
        rw [ha] at h
        simp at h
        exact finishCoerce_arr_dtype a0 d a h

theorem evalList_success_dtype (data : MData) (T : MTypeSpec) (d : Dtype)
    (a : NpArray) (tg : Option Dtype)
    (hres : resolveDtype T = .ok (some d))
    (h : evalList data T = .success a tg) : a.dtype = d ∧ tg = some d := by
  unfold evalList at h
  rw [hres] at h
  simp at h
  cases hc : coerceToArray data (some d) with
  | raised e => rw [hc] at h; simp at h
  | nullResult => rw [hc] at h; simp at h
  | arr b =>
    rw [hc] at h
    simp at h
    refine ⟨?_, ?_⟩
    · rw [← h.1]
      exact coerceToArray_some_dtype data d b hc
    · rw [← h.2]

theorem mkListExpression_elements (i : Nat) (els : List MElem)
    (props : Option MProps) (lv : Option (List PyVal)) :
    (mkListExpression i els props lv).elements = els := by
  unfold mkListExpression
  cases lv with
  | some v => rfl
  | none =>
    cases hs : scanLiteralValues els with
    | some vs => simp [hs]
    | none => simp [hs]

theorem mkListExpression_id (i : Nat) (els : List MElem)
    (props : Option MProps) (lv : Option (List PyVal)) :
    (mkListExpression i els props lv).id = i := by
  unfold mkListExpression
  cases lv with
  | some v => rfl
  | none =>
    cases hs : scanLiteralValues els with
    | some vs => simp [hs]
    | none => simp [hs]

theorem mkListExpression_value (i : Nat) (els : List MElem) (props : Option MProps) :
    (mkListExpression i els props none).value = scanLiteralValues els := by
  unfold mkListExpression
  cases hs : scanLiteralValues els with
  | some vs => simp [hs]
  | none => simp [hs]

/-- C10: a list node constructed from explicit elements of which at
least one is non-literal gets literal flag false and no primitive-value
cache at all: the `value` field stays unassigned (`none`), never an
empty or partial sequence. -/
theorem claim10_nonliteral_no_value (i : Nat) (els : List MElem) (props : Option MProps)
    (hnl : els.any (fun e => !e.isLiteral) = true) :
    (mkListExpression i els props none).isLiteral = false ∧
    (mkListExpression i els props none).value = none := by
  unfold mkListExpression
  rw [scanLiteralValues_none els hnl]
  exact ⟨rfl, rfl⟩

/-- Witness for C10: one final literal element next to one non-literal
element. -/
theorem claim10_witness :
    (mkListExpression 7 [⟨1, true, .int 5, true, false, true⟩,
        ⟨2, false, .int 0, true, false, false⟩] none none).isLiteral = false ∧
    (mkListExpression 7 [⟨1, true, .int 5, true, false, true⟩,
        ⟨2, false, .int 0, true, false, false⟩] none none).value = none :=
  claim10_nonliteral_no_value 7 _ none (by decide)

def lC9 : MListExpr := mkListExpression 0 [] none none

/-- C9 counterexample: reassigning the head to SymbolList itself is
accepted silently (the source only raises for a head different from
SymbolList), refuting "for every head symbol h the attempt fails". -/
theorem claim9_counterexample : setHead lC9 symbolList = .ok lC9 := rfl

/-- C9 (amended): reassigning the head to any symbol other than List
raises; reassigning to List itself is a silent no-op; in every case the
stored head is left unchanged. -/
theorem claim9_set_head (l : MListExpr) (h : String) :
    (h ≠ symbolList →
      setHead l h = .error "TypeError: Attempt to modify the Head of a ListExpression") ∧
    (∀ l2, setHead l h = .ok l2 → l2 = l ∧ l2.head = l.head) := by
  constructor
  · intro hne
    simp [setHead, hne]
  · intro l2 hok
    unfold setHead at hok
    by_cases hne : h = symbolList
    · simp [hne] at hok
      exact ⟨hok.symm, by rw [hok]⟩
    · simp [hne] at hok

/-- Witness for C9 at a head that is not SymbolList. -/
theorem claim9_witness :
    setHead lC9 "Global`f" = .error "TypeError: Attempt to modify the Head of a ListExpression" :=
  (claim9_set_head lC9 "Global`f").1 (by decide)

/-- C2: a list node whose elements are all final (with an absent or
accurately built elements-properties record) comes back from one
rewrite/apply/eval step as the very same instance — only the in-place
memoization of elements_properties distinguishes the record — and the
returned Boolean is False, the fixed-point "unchanged" signal. -/
theorem claim2_fixed_point_unchanged (ev : MElem → Option MElem) (l : MListExpr) (c e : Nat)
    (hwf : l.elementsProperties = none ∨
      l.elementsProperties = some (buildElementsProperties l.elements))
    (hfin : l.elements.all (fun x => x.fullyEvaluated) = true) :
    rewriteApplyEvalStep ev l c e = ({ l with elementsProperties := some (MProps.mk true) }, false) ∧
    (rewriteApplyEvalStep ev l c e).1.id = l.id ∧
    (rewriteApplyEvalStep ev l c e).1.elements = l.elements ∧
    (rewriteApplyEvalStep ev l c e).1.value = l.value ∧
    (rewriteApplyEvalStep ev l c e).2 = false := by
  have hb : buildElementsProperties l.elements = ⟨true⟩ := by
    unfold buildElementsProperties
    rw [hfin]
  have hmain : rewriteApplyEvalStep ev l c e = ({ l with elementsProperties := some (MProps.mk true) }, false) := by
    rcases hwf with hw | hw
    · simp [rewriteApplyEvalStep, hw, hb]
    · rw [hb] at hw
      have hl : ({ l with elementsProperties := some (MProps.mk true) } : MListExpr) = l := by
        cases l
        simp_all
      rw [hl]
      simp [rewriteApplyEvalStep, hw, hb]
  refine ⟨hmain, ?_, ?_, ?_, ?_⟩ <;> rw [hmain]

/-- Witness for C2: a concrete literal, fully evaluated one-element
node with no stored properties. -/
theorem claim2_witness :
    rewriteApplyEvalStep (fun x => some x)
        (mkListExpression 3 [⟨1, true, .int 5, true, false, true⟩] none none) 50 51 =
      ({ mkListExpression 3 [⟨1, true, .int 5, true, false, true⟩] none none with
          elementsProperties := some (MProps.mk true) }, false) ∧
    (rewriteApplyEvalStep (fun x => some x)
        (mkListExpression 3 [⟨1, true, .int 5, true, false, true⟩] none none) 50 51).1.id =
      (mkListExpression 3 [⟨1, true, .int 5, true, false, true⟩] none none).id ∧
    (rewriteApplyEvalStep (fun x => some x)
        (mkListExpression 3 [⟨1, true, .int 5, true, false, true⟩] none none) 50 51).1.elements =
      (mkListExpression 3 [⟨1, true, .int 5, true, false, true⟩] none none).elements ∧
    (rewriteApplyEvalStep (fun x => some x)
        (mkListExpression 3 [⟨1, true, .int 5, true, false, true⟩] none none) 50 51).1.value =
      (mkListExpression 3 [⟨1, true, .int 5, true, false, true⟩] none none).value ∧
    (rewriteApplyEvalStep (fun x => some x)
        (mkListExpression 3 [⟨1, true, .int 5, true, false, true⟩] none none) 50 51).2 = false :=
  claim2_fixed_point_unchanged (fun x => some x)
    (mkListExpression 3 [⟨1, true, .int 5, true, false, true⟩] none none) 50 51
    (Or.inl rfl) (by decide)

theorem evaluateElements_changed (ev : MElem → Option MElem) (l : MListExpr) (fid : Nat)
    (hch : (l.elements.map (evalElement ev)).any (fun r => r.2) = true) :
    evaluateElements ev l fid =
      { mkListExpression fid ((l.elements.map (evalElement ev)).map (fun r => r.1)) none none with
        elementsProperties := some (buildElementsProperties
          ((l.elements.map (evalElement ev)).map (fun r => r.1))) } := by
  unfold evaluateElements
  simp only [hch, if_true]
  simp [mkListExpression_elements]

def evC3 : MElem → Option MElem := fun x =>
  if x.id = 1 then some { x with id := 2, isLiteral := true, fullyEvaluated := true }
  else some x

def elemC3 : MElem := ⟨1, false, .int 0, true, false, false⟩

def lC3 : MListExpr := mkListExpression 10 [elemC3] none none

/-- C3 counterexample: one step on a node with one non-final element
whose evaluation returns a new object (different identity) builds a new
node (fresh id 51, recomputed literal cache), yet the returned Boolean
is False: the step signals the fixed-point "unchanged" value, never
"changed". -/
theorem claim3_counterexample :
    (rewriteApplyEvalStep evC3 lC3 50 51).1.id = 51 ∧
    (rewriteApplyEvalStep evC3 lC3 50 51).1.value = some [.int 0] ∧
    (rewriteApplyEvalStep evC3 lC3 50 51).2 = false := by
  refine ⟨rfl, rfl, rfl⟩

/-- C3 (amended): on a node with a non-final element (properties absent
or accurately built), the step evaluates every evaluable element not
marked Unevaluated, counts a change exactly on object-identity
difference, and when anything changed returns a brand-new node (fresh
id) whose literal cache is freshly recomputed from the updated elements
— but it signals False (the fixed-point value), not "changed". -/
theorem claim3_changed_rebuild (ev : MElem → Option MElem) (l : MListExpr) (c e : Nat)
    (hwf : l.elementsProperties = none ∨
      l.elementsProperties = some (buildElementsProperties l.elements))
    (hne : l.elements.all (fun x => x.fullyEvaluated) = false)
    (hch : (l.elements.map (evalElement ev)).any (fun r => r.2) = true) :
    rewriteApplyEvalStep ev l c e =
      ({ mkListExpression e ((l.elements.map (evalElement ev)).map (fun r => r.1)) none none with
          elementsProperties := some (buildElementsProperties
            ((l.elements.map (evalElement ev)).map (fun r => r.1))) }, false) ∧
    (rewriteApplyEvalStep ev l c e).1.value =
      scanLiteralValues ((l.elements.map (evalElement ev)).map (fun r => r.1)) ∧
    (rewriteApplyEvalStep ev l c e).1.id = e := by
  have hb : buildElementsProperties l.elements = ⟨false⟩ := by
    unfold buildElementsProperties
    rw [hne]
  have hstep : ∀ l1 : MListExpr, l1.elements = l.elements →
      evaluateElements ev (shallowCopy l1 c) e =
        { mkListExpression e ((l.elements.map (evalElement ev)).map (fun r => r.1)) none none with
          elementsProperties := some (buildElementsProperties
            ((l.elements.map (evalElement ev)).map (fun r => r.1))) } := by
    intro l1 hl1
    have hcopy : (shallowCopy l1 c).elements = l.elements := by
      unfold shallowCopy
      rw [mkListExpression_elements, hl1]
    rw [evaluateElements_changed ev (shallowCopy l1 c) e (by rw [hcopy]; exact hch)]
    rw [hcopy]
  have hmain : rewriteApplyEvalStep ev l c e =
      ({ mkListExpression e ((l.elements.map (evalElement ev)).map (fun r => r.1)) none none with
        elementsProperties := some (buildElementsProperties
          ((l.elements.map (evalElement ev)).map (fun r => r.1))) }, false) := by
    rcases hwf with hw | hw
    · have h1 := hstep { l with elementsProperties := some (buildElementsProperties l.elements) } rfl
      simp [rewriteApplyEvalStep, hw, hb] at h1 ⊢
      rw [← hb] at h1 ⊢
      exact h1
    · have h1 := hstep l rfl
      rw [hb] at hw
      simp [rewriteApplyEvalStep, hw, hb] at h1 ⊢
      exact h1
  refine ⟨hmain, ?_, ?_⟩
  · rw [hmain]
    simp only []
    rw [mkListExpression_value]
  · rw [hmain]
    simp only []
    rw [mkListExpression_id]

/-- Witness for C3 (amended) at the concrete changing evaluation. -/
theorem claim3_witness :
    rewriteApplyEvalStep evC3 lC3 50 51 =
      ({ mkListExpression 51 ((lC3.elements.map (evalElement evC3)).map (fun r => r.1)) none none with
          elementsProperties := some (buildElementsProperties
            ((lC3.elements.map (evalElement evC3)).map (fun r => r.1))) }, false) ∧
    (rewriteApplyEvalStep evC3 lC3 50 51).1.value =
      scanLiteralValues ((lC3.elements.map (evalElement evC3)).map (fun r => r.1)) ∧
    (rewriteApplyEvalStep evC3 lC3 50 51).1.id = 51 :=
  claim3_changed_rebuild evC3 lC3 50 51 (Or.inl rfl) (by decide) (by decide)

def emptyF64 : NpArray := ⟨.float64, .list .nil⟩

/-- C4 evaluated at the failing input (an empty dense buffer): the node
is unmaterialized right after construction and the first access
materializes it, after which the probe is true — but because the
memoization check tests Python truthiness of the cached tuple instead of
testing for None, the second access runs `_make_elements` again (the
returned flag is true both times).  Materialization stays idempotent:
both accesses return the same empty view and state. -/
theorem claim4_empty_rematerializes :
    isInstantiated (mkNumpyArrayListExpression emptyF64) = false ∧
    elementsAccess (mkNumpyArrayListExpression emptyF64) =
      .ok ([], ⟨emptyF64, some []⟩, true) ∧
    isInstantiated ⟨emptyF64, some []⟩ = true ∧
    elementsAccess ⟨emptyF64, some []⟩ = .ok ([], ⟨emptyF64, some []⟩, true) :=
  ⟨rfl, rfl, rfl, rfl⟩

def strListArr : NpArray := ⟨.strDt, .list (pyListOf [.str "a"])⟩

/-- C8 counterexample: a dense buffer whose element category is neither
numeric nor boolean (a string buffer) is accepted by the constructor
without any failure — no UnsupportedElementType check exists at
construction time. -/
theorem claim8_counterexample :
    isNumericDtype strListArr.dtype = false ∧ strListArr.dtype ≠ .boolDt ∧
    numpyArrayListInit strListArr = .ok (mkNumpyArrayListExpression strListArr) :=
  ⟨rfl, by decide, rfl⟩

/-- C8 (amended): construction of a dense lazy list node performs no
element-category check at all and never fails; every buffer is accepted
unmaterialized, and scalars are only converted at materialization by the
generic converter (a string buffer materializes into String atoms
without error). -/
theorem claim8_no_construction_check :
    (∀ a : NpArray, numpyArrayListInit a = .ok (mkNumpyArrayListExpression a) ∧
      isInstantiated (mkNumpyArrayListExpression a) = false) ∧
    makeElements strListArr = .ok [LazyChild.atomChild (MNormal.strA "a")] :=
  ⟨fun _ => ⟨rfl, rfl⟩, rfl⟩

/-- C5 evaluated at the failing input: for a literal list whose value
contains a non-numeric leaf (the string "a") and an explicit numeric
type, the literal branch of the coercion calls `numpy.asarray` outside
any try/except, so the conversion error escapes uncaught instead of
producing the `data` diagnostic and the failure sentinel.  The second
conjunct shows the claim's own example (a non-literal list with a symbol
leaf, which reaches the guarded generic branch) does fail with
DataInvalid as described. -/
theorem claim5_literal_branch_raises :
    evalList (.literalNode (.list (pyListOf [.str "a"]))) (.str "Integer32")
      = .raised "ValueError: invalid literal for int" ∧
    evalList (.genericNode (some (.list (pyListOf [.str "Global`sym", .int 1, .int 2]))))
        (.sym "System`Automatic") = .failed "data" :=
  ⟨rfl, rfl⟩

/-- C6 evaluated at the failing input: a type spec whose `to_python`
value is a Python list (e.g. the type spec `{1, 2}`) is truthy but
unhashable, so the registry lookup `NUMERIC_ARRAY_TYPE_MAP.get(key)`
raises TypeError outside any try/except; the resolver neither emits the
`type` diagnostic nor returns the failure sentinel, and the exception
escapes construction. -/
theorem claim6_unhashable_key_raises :
    resolveDtype (.other (some (.list (pyListOf [.int 1, .int 2]))))
      = .raised "TypeError: unhashable type: list" ∧
    evalList (.literalNode (.list (pyListOf [.int 1, .int 2, .int 3])))
        (.other (some (.list (pyListOf [.int 1, .int 2]))))
      = .raised "TypeError: unhashable type: list" :=
  ⟨rfl, rfl⟩

def pv123 : PyVal := .list (pyListOf [.int 1, .int 2, .int 3])

/-- C7: whenever the resolver validates an explicitly requested tag and
construction succeeds, the resulting atom's buffer carries exactly that
dtype (cast applied when needed) and the atom's stored tag is that tag;
concretely, [1,2,3] at UnsignedInteger16 keeps the values 1,2,3 at the
16-bit unsigned dtype, and [1,2,3] under the inference marker gets an
integer-category (int64) buffer. -/
theorem claim7_requested_tag :
    (∀ (data : MData) (T : MTypeSpec) (d : Dtype) (a : NpArray) (tg : Option Dtype),
      resolveDtype T = .ok (some d) → evalList data T = .success a tg →
        a.dtype = d ∧ tg = some d) ∧
    evalList (.literalNode pv123) (.str "UnsignedInteger16")
      = .success ⟨.uint16, pv123⟩ (some .uint16) ∧
    evalList (.literalNode pv123) (.str "Automatic") = .success ⟨.int64, pv123⟩ none ∧
    dtypeCat .int64 = .integerCat :=
  ⟨evalList_success_dtype, rfl, rfl, rfl⟩

/-- Witness for the universal part of C7 at the UnsignedInteger16
example. -/
theorem claim7_witness :
    (⟨.uint16, pv123⟩ : NpArray).dtype = .uint16 ∧
    (some Dtype.uint16 : Option Dtype) = some .uint16 :=
  claim7_requested_tag.1 (.literalNode pv123) (.str "UnsignedInteger16") .uint16
    ⟨.uint16, pv123⟩ (some .uint16) rfl rfl

/-- C1: for valid nested numeric data D (numeric leaves, rectangular
shape, machine-representable: under the inference marker the inferred
dtype is numeric, i.e. not the object fallback the coercion layer
rejects) and any resolvable type spec T whose effective dtype admits a
cast of D (hypothesis hcast names the cast result C, the claim's "D cast
to T's category"; out-of-range integer casts raise and admit no C),
construction succeeds with exactly that buffer, and the normal form of
the constructed array is the nested list/scalar view of C —
shape-preserving. -/
theorem claim1_round_trip (D : PyVal) (T : MTypeSpec) (dt : Option Dtype)
    (C : PyVal) (sh : List Nat)
    (hnum : isNumericData D = true)
    (hsh : shapeOf D = some sh)
    (hres : resolveDtype T = .ok dt)
    (heff : dt = none → isNumericDtype (naturalDtypeOf D) = true)
    (hcast : mapLeavesVal (castScalarAsarray (dt.getD (naturalDtypeOf D))) D = .ok C) :
    evalList (.literalNode D) T = .success ⟨dt.getD (naturalDtypeOf D), C⟩ dt ∧
    evalNormal ⟨dt.getD (naturalDtypeOf D), C⟩ = fromPythonVal C ∧
    shapeOf C = some sh := by
  have heffnum : isNumericDtype (dt.getD (naturalDtypeOf D)) = true := by
    cases dt with
    | none => exact heff rfl
    | some d => exact resolveDtype_numeric T d hres
  have hasa : asarray D dt = .ok ⟨dt.getD (naturalDtypeOf D), C⟩ := by
    unfold asarray
    rw [hsh, hcast]
  have hfin : finishCoerce ⟨dt.getD (naturalDtypeOf D), C⟩ dt =
      .arr ⟨dt.getD (naturalDtypeOf D), C⟩ :=
    finishCoerce_of_matching _ dt (fun d hd => by rw [hd]; rfl) heffnum
  have hco : coerceToArray (.literalNode D) dt = .arr ⟨dt.getD (naturalDtypeOf D), C⟩ := by
    simp only [coerceToArray]
    rw [hasa]
    simpa using hfin
  refine ⟨?_, rfl, ?_⟩
  · simp [evalList, hres, hco]
  · rw [mapLeavesVal_shape (castScalarAsarray (dt.getD (naturalDtypeOf D)))
      (fun s r hr => castScalarAsarray_scalar _ s r hr) D C hcast, hsh]

def pvD12 : PyVal := .list (pyListOf [.int 1, .int 2])
def pvC12 : PyVal := .list (pyListOf [.real 1, .real 2])
def pvBig : PyVal := .list (pyListOf [.int 9223372036854775808])

/-- Witness for C1: the integer list [1, 2] constructed at Real64
round-trips to the real list [1.0, 2.0] with shape [2]; and under the
inference marker the list [2^63] infers uint64 (not int64) and
round-trips with its value 2^63 preserved, shape [1]. -/
theorem claim1_witness :
    (evalList (.literalNode pvD12) (.str "Real64")
        = .success ⟨.float64, pvC12⟩ (some .float64) ∧
      evalNormal ⟨.float64, pvC12⟩ = fromPythonVal pvC12 ∧
      shapeOf pvC12 = some [2]) ∧
    (evalList (.literalNode pvBig) (.sym "System`Automatic")
        = .success ⟨.uint64, pvBig⟩ none ∧
      evalNormal ⟨.uint64, pvBig⟩ = fromPythonVal pvBig ∧
      shapeOf pvBig = some [1]) :=
  ⟨claim1_round_trip pvD12 (.str "Real64") (some .float64) pvC12 [2]
      (by decide) (by decide) (by decide) (fun hdt => by cases hdt) (by decide),
   claim1_round_trip pvBig (.sym "System`Automatic") none pvBig [1]
      (by decide) (by decide) (by decide) (fun _ => by decide) (by decide)⟩
